import Mathlib

/-!
# Vienna Theatre API — verification of the service layer

Shallow embedding of `src/main.py` (a FastAPI read-oriented content API):
the seed bootstrapper `ensure_seed_data`, the startup hook `startup_event`,
and the four read endpoints `get_info`, `get_owners`, `get_events`,
`test_database`.

The document store (`database` module: the handle `db`, `create_document`,
`get_documents`) is repository code not present under `src/`; those parts are
modelled from the spec, as are the Mongo driver operations invoked in
`src/main.py` (`count_documents`, `find_one` with a sort, `find().sort`).
Datetimes are modelled as natural numbers (seconds); a Python dict is an
association list with pairwise-distinct keys.
-/

/-- A field value stored in a document: a string, an integer, or a
datetime (seconds since an arbitrary epoch). -/
inductive Value where
  | str : String → Value
  | int : Int → Value
  | dt : Nat → Value
deriving DecidableEq, Repr

/-- A document is a Python dict: an association list from field names to
values.  A genuine dict has pairwise-distinct keys (`DocWF` below). -/
abbrev Doc := List (String × Value)

/-- Dict lookup: the value at the first entry with the given key. -/
def Doc.lookup : Doc → String → Option Value
  | [], _ => none
  | (k, v) :: rest, key => if k = key then some v else Doc.lookup rest key

/-- Python `d.pop(key, None)`: remove the (first) entry with the given key. -/
def popKey : Doc → String → Doc
  | [], _ => []
  | (k, v) :: rest, key => if k = key then rest else (k, v) :: popKey rest key

/-- Projection `doc.pop("_id", None)` as used by the three content endpoints. -/
def popId (d : Doc) : Doc := popKey d "_id"

/-- Well-formed document: a genuine Python/Mongo dict — pairwise-distinct
keys — that carries the store-assigned `_id` field (every persisted Mongo
document has one). -/
def DocWF (d : Doc) : Prop :=
  (d.map Prod.fst).Nodup ∧ d.lookup "_id" ≠ none

/-- Modelled from the spec: the document store holds the three fixed
collections (`info`, `owner`, `event`), each a list of documents in
insertion order, plus the monotone counter the store uses to assign
internal identifiers and creation timestamps at insertion. -/
structure DB where
  clock : Nat
  info : List Doc
  owner : List Doc
  event : List Doc
deriving Repr

/-- Every stored document of every collection is a well-formed dict. -/
def DBWF (db : DB) : Prop :=
  (∀ d ∈ db.info, DocWF d) ∧ (∀ d ∈ db.owner, DocWF d) ∧
    (∀ d ∈ db.event, DocWF d)

/-- Modelled from the spec: `create_document(collection, data)` inserts the
record, the store assigning an internal identifier and a creation timestamp
implicitly at insertion. -/
def create_document (coll : String) (data : Doc) (db : DB) : DB :=
  let d : Doc :=
    ("_id", Value.int (Int.ofNat db.clock)) ::
      ("created_at", Value.dt db.clock) :: data
  if coll = "info" then
    { db with info := db.info ++ [d], clock := db.clock + 1 }
  else if coll = "owner" then
    { db with owner := db.owner ++ [d], clock := db.clock + 1 }
  else if coll = "event" then
    { db with event := db.event ++ [d], clock := db.clock + 1 }
  else db

/-- Modelled from the spec: `get_documents(collection)` returns every
record of the collection in natural (insertion) order. -/
def get_documents (db : DB) (coll : String) : List Doc :=
  if coll = "info" then db.info
  else if coll = "owner" then db.owner
  else if coll = "event" then db.event
  else []

/-- Store call `db[coll].count_documents({})`: the number of documents stored. -/
def count_documents (l : List Doc) : Nat := l.length

/-- The seed `Info` record of `ensure_seed_data` (`src/main.py`). -/
def infoSeed : Doc :=
  [ ("name", .str "Kabarett & Impro Wien"),
    ("address", .str "Kreativgasse 12"),
    ("city", .str "Wien"),
    ("country", .str "Österreich"),
    ("phone", .str "+43 1 234 5678"),
    ("email", .str "hello@kabarett-impro.wien"),
    ("website", .str "https://kabarett-impro.wien"),
    ("description_de", .str "Ein quirliges Zuhause für Kabarett, Stand-up und Impro in Wien."),
    ("description_en", .str "A quirky home for cabaret, stand-up, and improv in Vienna."),
    ("how_to_get_de", .str "U3 bis Volkstheater, dann 5 Minuten zu Fuß. Straßenbahn 49 bis Siebensternplatz."),
    ("how_to_get_en", .str "U3 to Volkstheater, then a 5-minute walk. Tram 49 to Siebensternplatz."),
    ("video_reel_url", .str "https://player.vimeo.com/video/76979871?h=8272103f6e") ]

/-- The two seed `Owner` records, in source order. -/
def ownerSeeds : List Doc :=
  [ [ ("name", .str "Lena Leitner"),
      ("role", .str "Künstlerische Leitung"),
      ("bio_de", .str "Improverin, Kabarettistin und professionelle Quatschmacherin."),
      ("bio_en", .str "Improviser, cabaret artist and professional mischief maker."),
      ("avatar", .str "https://i.pravatar.cc/200?img=5") ],
    [ ("name", .str "Max Maurer"),
      ("role", .str "Geschäftsführung"),
      ("bio_de", .str "Organisationswitz mit Herz für Pointen und Publikum."),
      ("bio_en", .str "Organizational wizard with a heart for punchlines and people."),
      ("avatar", .str "https://i.pravatar.cc/200?img=12") ] ]

/-- Seconds in a day, for `timedelta(days=n)`. -/
def daySecs : Nat := 86400

/-- The three seed `Event` records, in source order; `base` is
`datetime.utcnow().replace(hour=19, minute=30, second=0, microsecond=0)`. -/
def eventSeeds (base : Nat) : List Doc :=
  [ [ ("title", .str "Kabarett: Wiener Schmäh"),
      ("description", .str "Pointenreicher Abend mit lokalen Talenten."),
      ("date", .dt (base + 7 * daySecs)),
      ("language", .str "de"),
      ("category", .str "Kabarett"),
      ("duration_min", .int 90),
      ("ticket_url", .str "https://tickets.example.com/kabarett-wiener-schmaeh"),
      ("cover_image", .str "https://images.unsplash.com/photo-1515165562835-c3b8c935f746?q=80&w=1200&auto=format&fit=crop") ],
    [ ("title", .str "Improv: Alles kann, nix muss"),
      ("description", .str "Publikumsvorschläge führen zu wilden Szenen."),
      ("date", .dt (base + 18 * daySecs)),
      ("language", .str "de"),
      ("category", .str "Impro"),
      ("duration_min", .int 80),
      ("ticket_url", .str "https://tickets.example.com/improv-alles-kann"),
      ("cover_image", .str "https://images.unsplash.com/photo-1508214751196-bcfd4ca60f91?q=80&w=1200&auto=format&fit=crop") ],
    [ ("title", .str "Stand-up: Late Night Laughs"),
      ("description", .str "Englischsprachige Comedians aus ganz Europa."),
      ("date", .dt (base + 32 * daySecs)),
      ("language", .str "en"),
      ("category", .str "Stand-up"),
      ("duration_min", .int 100),
      ("ticket_url", .str "https://tickets.example.com/late-night-laughs"),
      ("cover_image", .str "https://images.unsplash.com/photo-1487537023671-8dce1a785863?q=80&w=1200&auto=format&fit=crop") ] ]

/-- Seeder `ensure_seed_data()` (`src/main.py:59-142`): for each of the three
collections, if its document count is zero, insert the literal seed
record(s); otherwise leave it alone.  A `None` store handle is a no-op.
`base` is the truncated `utcnow` the source computes for the event dates. -/
def ensure_seed_data (base : Nat) (s : Option DB) : Option DB :=
  match s with
  | none => none
  | some db0 =>
    let db1 := if count_documents db0.info == 0
      then create_document "info" infoSeed db0 else db0
    let db2 := if count_documents db1.owner == 0
      then ownerSeeds.foldl (fun acc o => create_document "owner" o acc) db1
      else db1
    let db3 := if count_documents db2.event == 0
      then (eventSeeds base).foldl
        (fun acc e => create_document "event" e acc) db2
      else db2
    some db3

/-- FastAPI `HTTPException(status_code=..., detail=...)`. -/
structure HTTPException where
  status_code : Nat
  detail : String
deriving DecidableEq, Repr

/-- Store call `find_one({}, sort=[("created_at", -1)])`: the document whose
store-assigned creation timestamp is modelled by `createdKey`. -/
def createdKey (d : Doc) : Nat :=
  match d.lookup "created_at" with
  | some (.dt t) => t
  | _ => 0

/-- Ascending comparison on the `date` field used by
`find({}).sort("date", 1)`; documents without a datetime `date` field
compare as minimal, as Mongo sorts missing fields first. -/
def dateKey (d : Doc) : Nat :=
  match d.lookup "date" with
  | some (.dt t) => t
  | _ => 0

/-- Modelled from the spec: `find_one({}, sort=[("created_at", -1)])` —
the first document of the collection in descending creation-timestamp
order, `None` on an empty collection. -/
def find_one_created_desc (l : List Doc) : Option Doc :=
  (List.insertionSort (fun a b => createdKey b ≤ createdKey a) l).head?

/-- Endpoint `GET /api/info` (`src/main.py:159-167`): 500 when the store handle is
absent; fetch the most-recently-created `info` record; 404 when the result
is falsy (no document, or an empty dict); otherwise strip `_id` and return
the record. -/
def get_info (s : Option DB) : Except HTTPException Doc :=
  match s with
  | none => .error ⟨500, "Database not available"⟩
  | some db =>
    match find_one_created_desc db.info with
    | none => .error ⟨404, "Info not found"⟩
    | some doc =>
      if doc.isEmpty then .error ⟨404, "Info not found"⟩
      else .ok (popId doc)

/-- Endpoint `GET /api/owners` (`src/main.py:170-177`): 500 when the store handle is
absent; otherwise every `owner` record in natural order, `_id` stripped. -/
def get_owners (s : Option DB) : Except HTTPException (List Doc) :=
  match s with
  | none => .error ⟨500, "Database not available"⟩
  | some db => .ok ((get_documents db "owner").map popId)

/-- Endpoint `GET /api/events` (`src/main.py:180-187`): 500 when the store handle is
absent; otherwise every `event` record sorted ascending by `date`, `_id`
stripped. -/
def get_events (s : Option DB) : Except HTTPException (List Doc) :=
  match s with
  | none => .error ⟨500, "Database not available"⟩
  | some db =>
    .ok ((List.insertionSort (fun a b => dateKey a ≤ dateKey b)
      db.event).map popId)

/-- Shape of the `GET /test` diagnostic payload: the six fixed keys of the
response dict built in `test_database` (`src/main.py:190-218`). -/
structure TestResp where
  backend : String
  database : String
  database_url : Option String
  database_name : Option String
  connection_status : String
  collections : List String
deriving DecidableEq, Repr

/-- Endpoint `GET /test` (`src/main.py:190-218`).  Inputs model the process
environment: whether the store handle is set, whether the two environment
variables are set, and the outcome of `db.list_collection_names()` (an
exception is an `Except.error` carrying `str(e)`).  The function is total:
every outcome is a payload, never an error status. -/
def test_database (dbPresent urlSet nameSet : Bool)
    (listColl : Except String (List String)) : TestResp :=
  let response : TestResp :=
    { backend := "✅ Running"
      database := "❌ Not Available"
      database_url := none
      database_name := none
      connection_status := "Not Connected"
      collections := [] }
  if dbPresent then
    let response := { response with
      database := "✅ Available"
      database_url := some (if urlSet then "✅ Set" else "❌ Not Set")
      database_name := some (if nameSet then "✅ Set" else "❌ Not Set")
      connection_status := "Connected" }
    match listColl with
    | .ok names =>
      { response with
        collections := names.take 10
        database := "✅ Connected & Working" }
    | .error e =>
      { response with database := "⚠️  Connected but Error: " ++ e.take 50 }
  else
    { response with database := "⚠️  Available but not initialized" }

/-- Modelled from the spec: a store insertion that may throw.  The failure
oracle says whether the insertion performed at a given store counter value
raises; on a raise the state mutated so far persists and is carried in the
error. -/
def create_documentE (fail : Nat → Bool) (coll : String) (data : Doc)
    (db : DB) : Except (String × DB) DB :=
  if fail db.clock then .error ("insert failed", db)
  else .ok (create_document coll data db)

/-- Seeder `ensure_seed_data()` run against a store whose insertions may
throw (`fail` oracle).  An error carries the store state left behind at the
moment the exception was raised. -/
def ensure_seed_dataE (base : Nat) (fail : Nat → Bool) (s : Option DB) :
    Except (String × Option DB) (Option DB) :=
  match s with
  | none => .ok none
  | some db0 =>
    match (if count_documents db0.info == 0
        then create_documentE fail "info" infoSeed db0 else .ok db0) with
    | .error (m, d) => .error (m, some d)
    | .ok db1 =>
      match (if count_documents db1.owner == 0
          then ownerSeeds.foldlM
            (fun acc o => create_documentE fail "owner" o acc) db1
          else .ok db1) with
      | .error (m, d) => .error (m, some d)
      | .ok db2 =>
        match (if count_documents db2.event == 0
            then (eventSeeds base).foldlM
              (fun acc e => create_documentE fail "event" e acc) db2
            else .ok db2) with
        | .error (m, d) => .error (m, some d)
        | .ok db3 => .ok (some db3)

/-- Startup hook (`src/main.py:145-151`): run `ensure_seed_data` inside
`try: ... except Exception: pass` — whatever state seeding left behind is
kept, any exception is discarded, and startup always completes with a
store state (the result type has no error case: nothing is surfaced). -/
def startup_event (base : Nat) (fail : Nat → Bool) (s : Option DB) :
    Option DB :=
  match ensure_seed_dataE base fail s with
  | .ok st => st
  | .error (_, st) => st

/-- Reads a string-valued field, `none` when absent or of another type. -/
def getStr (d : Doc) (k : String) : Option String :=
  match d.lookup k with
  | some (.str s) => some s
  | _ => none

/-- Reads an integer-valued field, `none` when absent or of another type. -/
def getInt (d : Doc) (k : String) : Option Int :=
  match d.lookup k with
  | some (.int n) => some n
  | _ => none

/-- Reads a datetime-valued field, `none` when absent or of another type. -/
def getDt (d : Doc) (k : String) : Option Nat :=
  match d.lookup k with
  | some (.dt t) => some t
  | _ => none

/-- Response model `InfoOut` (`src/main.py:23-35`): required venue identity
fields plus optional contact/description fields defaulting to `None`. -/
structure InfoOut where
  name : String
  address : String
  city : String
  country : String
  phone : Option String
  email : Option String
  website : Option String
  description_de : Option String
  description_en : Option String
  how_to_get_de : Option String
  how_to_get_en : Option String
  video_reel_url : Option String
deriving DecidableEq, Repr

/-- Response model `OwnerOut` (`src/main.py:38-43`). -/
structure OwnerOut where
  name : String
  role : String
  bio_de : String
  bio_en : String
  avatar : Option String
deriving DecidableEq, Repr

/-- Response model `EventOut` (`src/main.py:46-54`). -/
structure EventOut where
  title : String
  description : Option String
  date : Nat
  language : String
  category : String
  duration_min : Option Int
  ticket_url : Option String
  cover_image : Option String
deriving DecidableEq, Repr

/-- Validation of a returned dict against `InfoOut`: required fields must
be present strings; optional fields default to `none` when not set. -/
def InfoOut.fromDoc (d : Doc) : Option InfoOut :=
  match getStr d "name", getStr d "address", getStr d "city",
      getStr d "country" with
  | some n, some a, some c, some co =>
    some { name := n, address := a, city := c, country := co
           phone := getStr d "phone"
           email := getStr d "email"
           website := getStr d "website"
           description_de := getStr d "description_de"
           description_en := getStr d "description_en"
           how_to_get_de := getStr d "how_to_get_de"
           how_to_get_en := getStr d "how_to_get_en"
           video_reel_url := getStr d "video_reel_url" }
  | _, _, _, _ => none

/-- Validation of a returned dict against `OwnerOut`. -/
def OwnerOut.fromDoc (d : Doc) : Option OwnerOut :=
  match getStr d "name", getStr d "role", getStr d "bio_de",
      getStr d "bio_en" with
  | some n, some r, some bd, some be =>
    some { name := n, role := r, bio_de := bd, bio_en := be
           avatar := getStr d "avatar" }
  | _, _, _, _ => none

/-- Validation of a returned dict against `EventOut`. -/
def EventOut.fromDoc (d : Doc) : Option EventOut :=
  match getStr d "title", getDt d "date", getStr d "language",
      getStr d "category" with
  | some t, some dt, some lg, some cat =>
    some { title := t, date := dt, language := lg, category := cat
           description := getStr d "description"
           duration_min := getInt d "duration_min"
           ticket_url := getStr d "ticket_url"
           cover_image := getStr d "cover_image" }
  | _, _, _, _ => none

instance : IsTotal Doc (fun a b => dateKey a ≤ dateKey b) :=
  ⟨fun a b => Nat.le_total (dateKey a) (dateKey b)⟩

instance : IsTrans Doc (fun a b => dateKey a ≤ dateKey b) :=
  ⟨fun _ _ _ h1 h2 => Nat.le_trans h1 h2⟩

instance : IsTotal Doc (fun a b => createdKey b ≤ createdKey a) :=
  ⟨fun a b => (Nat.le_total (createdKey b) (createdKey a)).imp id id⟩

instance : IsTrans Doc (fun a b => createdKey b ≤ createdKey a) :=
  ⟨fun _ _ _ h1 h2 => Nat.le_trans h2 h1⟩

instance (d : Doc) : Decidable (DocWF d) := by
  unfold DocWF
  infer_instance

instance (db : DB) : Decidable (DBWF db) := by
  unfold DBWF
  infer_instance

instance : DecidableEq (Except HTTPException Doc) := fun a b => by
  cases a <;> cases b <;>
    first
      | exact isFalse Except.noConfusion
      | exact decidable_of_iff _ (by rw [Except.error.injEq])
      | exact decidable_of_iff _ (by rw [Except.ok.injEq])

instance : DecidableEq (Except HTTPException (List Doc)) := fun a b => by
  cases a <;> cases b <;>
    first
      | exact isFalse Except.noConfusion
      | exact decidable_of_iff _ (by rw [Except.error.injEq])
      | exact decidable_of_iff _ (by rw [Except.ok.injEq])

/-- A fresh, empty store. -/
def freshDB : DB := ⟨0, [], [], []⟩

/-- A store holding a single info document. -/
def oneInfoDB : DB :=
  ⟨1, [[("_id", Value.int 0), ("created_at", Value.dt 0),
        ("name", Value.str "x")]], [], []⟩

/-- A store holding two info documents with distinct creation
timestamps. -/
def twoInfoDB : DB :=
  ⟨2, [[("_id", Value.int 0), ("created_at", Value.dt 0),
        ("name", Value.str "old")],
       [("_id", Value.int 1), ("created_at", Value.dt 1),
        ("name", Value.str "new")]], [], []⟩

/-- A store whose three collections are all non-empty, with content
unrelated to the seed records. -/
def nonEmptyDB : DB :=
  ⟨3, [[("_id", Value.int 0)]], [[("_id", Value.int 1)]],
   [[("_id", Value.int 2)]]⟩

/-- The store produced by seeding a fresh empty store: the seed records
with their store-assigned identifiers and creation timestamps. -/
def seededAt (base : Nat) : DB where
  clock := 6
  info := [("_id", Value.int 0) :: ("created_at", Value.dt 0) :: infoSeed]
  owner :=
    [("_id", Value.int 1) :: ("created_at", Value.dt 1) ::
        ownerSeeds.getD 0 [],
      ("_id", Value.int 2) :: ("created_at", Value.dt 2) ::
        ownerSeeds.getD 1 []]
  event :=
    [("_id", Value.int 3) :: ("created_at", Value.dt 3) ::
        (eventSeeds base).getD 0 [],
      ("_id", Value.int 4) :: ("created_at", Value.dt 4) ::
        (eventSeeds base).getD 1 [],
      ("_id", Value.int 5) :: ("created_at", Value.dt 5) ::
        (eventSeeds base).getD 2 []]

/-! ## Helper lemmas -/

theorem lookup_eq_none_of_not_mem (d : Doc) (k : String)
    (h : k ∉ d.map Prod.fst) : d.lookup k = none := by
  induction d with
  | nil => rfl
  | cons a rest ih =>
    obtain ⟨ka, va⟩ := a
    simp only [List.map_cons, List.mem_cons, not_or] at h
    simp only [Doc.lookup, if_neg (Ne.symm h.1)]
    exact ih h.2

theorem lookup_popKey_of_ne (d : Doc) (k key : String) (h : k ≠ key) :
    (popKey d key).lookup k = d.lookup k := by
  induction d with
  | nil => rfl
  | cons a rest ih =>
    obtain ⟨ka, va⟩ := a
    by_cases hk : ka = key
    · subst hk
      simp only [popKey, if_pos rfl, if_true, Doc.lookup, if_neg (Ne.symm h)]
    · simp only [popKey, if_neg hk, Doc.lookup]
      by_cases hka : ka = k
      · simp [hka]
      · simp only [if_neg hka]
        exact ih

theorem lookup_popKey_self (d : Doc) (key : String)
    (h : (d.map Prod.fst).Nodup) : (popKey d key).lookup key = none := by
  induction d with
  | nil => rfl
  | cons a rest ih =>
    obtain ⟨ka, va⟩ := a
    simp only [List.map_cons, List.nodup_cons] at h
    by_cases hk : ka = key
    · simp only [popKey, if_pos hk]
      exact lookup_eq_none_of_not_mem rest key (hk ▸ h.1)
    · simp only [popKey, if_neg hk, Doc.lookup, if_neg hk]
      exact ih h.2

theorem popId_lookup_id (d : Doc) (h : (d.map Prod.fst).Nodup) :
    (popId d).lookup "_id" = none :=
  lookup_popKey_self d "_id" h

theorem popId_lookup_other (d : Doc) (k : String) (h : k ≠ "_id") :
    (popId d).lookup k = d.lookup k :=
  lookup_popKey_of_ne d k "_id" h

theorem dateKey_popId (d : Doc) : dateKey (popId d) = dateKey d := by
  unfold dateKey
  rw [popId_lookup_other d "date" (by decide)]

theorem mem_of_head?_eq {α : Type} {l : List α} {a : α}
    (h : l.head? = some a) : a ∈ l := by
  cases l with
  | nil => simp at h
  | cons b t =>
    simp only [List.head?_cons] at h
    obtain rfl : b = a := Option.some.inj h
    exact List.mem_cons_self _ _

theorem find_one_mem {l : List Doc} {d : Doc}
    (h : find_one_created_desc l = some d) : d ∈ l := by
  unfold find_one_created_desc at h
  exact (List.perm_insertionSort _ l).subset (mem_of_head?_eq h)

/-! ## Claims -/

/-- C1: for every store state with the handle present, `get_events`
succeeds and returns the full event collection (up to the `_id`
projection) sorted in non-decreasing order of the `date` field, whatever
the insertion order was. -/
theorem c1_get_events_sorted (db : DB) :
    ∃ l, get_events (some db) = .ok l ∧
      l.Pairwise (fun a b => dateKey a ≤ dateKey b) ∧
      l.Perm (db.event.map popId) := by
  refine ⟨_, rfl, ?_, ?_⟩
  · rw [List.pairwise_map]
    have hs : List.Pairwise (fun a b => dateKey a ≤ dateKey b)
        (List.insertionSort (fun a b => dateKey a ≤ dateKey b) db.event) :=
      List.sorted_insertionSort _ db.event
    exact hs.imp (fun h => by rwa [dateKey_popId, dateKey_popId])
  · exact (List.perm_insertionSort _ db.event).map popId

/-- C5: with the store handle absent, all three content endpoints fail
with the same fixed 500 response and return no content. -/
theorem c5_no_handle_500 :
    get_info none = .error ⟨500, "Database not available"⟩ ∧
    get_owners none = .error ⟨500, "Database not available"⟩ ∧
    get_events none = .error ⟨500, "Database not available"⟩ :=
  ⟨rfl, rfl, rfl⟩

/-- C10: with the handle present, an empty owner or event collection is
not an error — the list endpoints return `200` with an empty list — in
contrast to `get_info`, which returns 404 on an empty info collection. -/
theorem c10_empty_collection_ok (db : DB) :
    (db.owner = [] → get_owners (some db) = .ok []) ∧
    (db.event = [] → get_events (some db) = .ok []) ∧
    (db.info = [] → get_info (some db) = .error ⟨404, "Info not found"⟩) := by
  refine ⟨fun h => ?_, fun h => ?_, fun h => ?_⟩
  · simp [get_owners, get_documents, h]
  · simp [get_events, h]
  · simp [get_info, find_one_created_desc, h]

/-- Witness for C10 at the fresh empty store. -/
theorem c10_empty_collection_ok_witness :
    get_owners (some freshDB) = .ok [] ∧
    get_events (some freshDB) = .ok [] ∧
    get_info (some freshDB) = .error ⟨404, "Info not found"⟩ :=
  ⟨(c10_empty_collection_ok freshDB).1 rfl,
   (c10_empty_collection_ok freshDB).2.1 rfl,
   (c10_empty_collection_ok freshDB).2.2 rfl⟩

theorem getStr_eq_none {d : Doc} {k : String} (h : d.lookup k = none) :
    getStr d k = none := by
  simp [getStr, h]

theorem getInt_eq_none {d : Doc} {k : String} (h : d.lookup k = none) :
    getInt d k = none := by
  simp [getInt, h]

theorem InfoOut_fromDoc_optional (d : Doc) (o : InfoOut)
    (h : InfoOut.fromDoc d = some o) :
    o.phone = getStr d "phone" ∧ o.email = getStr d "email" ∧
    o.website = getStr d "website" ∧
    o.description_de = getStr d "description_de" ∧
    o.description_en = getStr d "description_en" ∧
    o.how_to_get_de = getStr d "how_to_get_de" ∧
    o.how_to_get_en = getStr d "how_to_get_en" ∧
    o.video_reel_url = getStr d "video_reel_url" := by
  unfold InfoOut.fromDoc at h
  split at h
  · obtain rfl := Option.some.inj h
    exact ⟨rfl, rfl, rfl, rfl, rfl, rfl, rfl, rfl⟩
  · simp at h

theorem OwnerOut_fromDoc_optional (d : Doc) (o : OwnerOut)
    (h : OwnerOut.fromDoc d = some o) : o.avatar = getStr d "avatar" := by
  unfold OwnerOut.fromDoc at h
  split at h
  · obtain rfl := Option.some.inj h
    rfl
  · simp at h

theorem EventOut_fromDoc_optional (d : Doc) (o : EventOut)
    (h : EventOut.fromDoc d = some o) :
    o.description = getStr d "description" ∧
    o.duration_min = getInt d "duration_min" ∧
    o.ticket_url = getStr d "ticket_url" ∧
    o.cover_image = getStr d "cover_image" := by
  unfold EventOut.fromDoc at h
  split at h
  · obtain rfl := Option.some.inj h
    exact ⟨rfl, rfl, rfl, rfl⟩
  · simp at h

/-- C2: on every well-formed store, every successful response of
`get_info`, `get_owners` and `get_events` carries no `_id` field and agrees
with the stored record on every other field; and in the response models,
optional fields are `none` whenever the corresponding field is not set. -/
theorem c2_projection_strips_id (db : DB) (hWF : DBWF db) :
    (∀ r, get_info (some db) = .ok r →
      r.lookup "_id" = none ∧
        ∃ d ∈ db.info, ∀ k, k ≠ "_id" → r.lookup k = d.lookup k) ∧
    (∀ l, get_owners (some db) = .ok l → ∀ r ∈ l,
      r.lookup "_id" = none ∧
        ∃ d ∈ db.owner, ∀ k, k ≠ "_id" → r.lookup k = d.lookup k) ∧
    (∀ l, get_events (some db) = .ok l → ∀ r ∈ l,
      r.lookup "_id" = none ∧
        ∃ d ∈ db.event, ∀ k, k ≠ "_id" → r.lookup k = d.lookup k) ∧
    (∀ d o, InfoOut.fromDoc d = some o →
      (d.lookup "phone" = none → o.phone = none) ∧
      (d.lookup "video_reel_url" = none → o.video_reel_url = none)) ∧
    (∀ d o, OwnerOut.fromDoc d = some o →
      d.lookup "avatar" = none → o.avatar = none) ∧
    (∀ d o, EventOut.fromDoc d = some o →
      (d.lookup "description" = none → o.description = none) ∧
      (d.lookup "duration_min" = none → o.duration_min = none) ∧
      (d.lookup "ticket_url" = none → o.ticket_url = none) ∧
      (d.lookup "cover_image" = none → o.cover_image = none)) := by
  refine ⟨?_, ?_, ?_, ?_, ?_, ?_⟩
  · intro r h
    cases hf : find_one_created_desc db.info with
    | none => simp [get_info, hf] at h
    | some doc =>
      simp only [get_info, hf] at h
      by_cases hd : doc.isEmpty
      · simp [hd] at h
      · simp only [if_neg hd] at h
        obtain rfl := (Except.ok.inj h)
        have hdmem := find_one_mem hf
        have hwf := hWF.1 doc hdmem
        exact ⟨popId_lookup_id doc hwf.1, doc, hdmem,
          fun k hk => popId_lookup_other doc k hk⟩
  · intro l h r hr
    simp only [get_owners, get_documents] at h
    norm_num at h
    subst h
    obtain ⟨d, hd, rfl⟩ := List.mem_map.mp hr
    have hwf := hWF.2.1 d hd
    exact ⟨popId_lookup_id d hwf.1, d, hd,
      fun k hk => popId_lookup_other d k hk⟩
  · intro l h r hr
    simp only [get_events, Except.ok.injEq] at h
    subst h
    obtain ⟨d, hd, rfl⟩ := List.mem_map.mp hr
    have hd2 : d ∈ db.event :=
      (List.perm_insertionSort _ db.event).subset hd
    have hwf := hWF.2.2 d hd2
    exact ⟨popId_lookup_id d hwf.1, d, hd2,
      fun k hk => popId_lookup_other d k hk⟩
  · intro d o h
    obtain ⟨h1, _, _, _, _, _, _, h8⟩ := InfoOut_fromDoc_optional d o h
    exact ⟨fun hn => h1.trans (getStr_eq_none hn),
      fun hn => h8.trans (getStr_eq_none hn)⟩
  · intro d o h hn
    exact (OwnerOut_fromDoc_optional d o h).trans (getStr_eq_none hn)
  · intro d o h
    obtain ⟨h1, h2, h3, h4⟩ := EventOut_fromDoc_optional d o h
    exact ⟨fun hn => h1.trans (getStr_eq_none hn),
      fun hn => h2.trans (getInt_eq_none hn),
      fun hn => h3.trans (getStr_eq_none hn),
      fun hn => h4.trans (getStr_eq_none hn)⟩

/-- Witness for C2: the single-info store; its `get_info` response lacks
`_id` and agrees with the stored document elsewhere. -/
theorem c2_projection_strips_id_witness :
    Doc.lookup [("created_at", Value.dt 0), ("name", Value.str "x")]
        "_id" = none ∧
      ∃ d ∈ oneInfoDB.info, ∀ k, k ≠ "_id" →
        Doc.lookup [("created_at", Value.dt 0), ("name", Value.str "x")] k =
          d.lookup k :=
  (c2_projection_strips_id oneInfoDB (by decide)).1 _ (by decide)

theorem find_one_eq_none_iff (l : List Doc) :
    find_one_created_desc l = none ↔ l = [] := by
  unfold find_one_created_desc
  rw [List.head?_eq_none_iff]
  constructor
  · intro h
    have hp := List.perm_insertionSort
      (fun a b => createdKey b ≤ createdKey a) l
    rw [h] at hp
    exact hp.symm.eq_nil
  · intro h
    rw [h]
    rfl

/-- C7: `get_info` answers 404 exactly when the store handle is present
and the info collection is empty; an absent handle never yields 404. -/
theorem c7_info_404_iff :
    (∀ db : DB, (∀ d ∈ db.info, DocWF d) →
      (get_info (some db) = .error ⟨404, "Info not found"⟩ ↔
        db.info = [])) ∧
    get_info none ≠ .error ⟨404, "Info not found"⟩ := by
  constructor
  · intro db hWF
    constructor
    · intro h
      by_contra hne
      cases hf : find_one_created_desc db.info with
      | none => exact hne ((find_one_eq_none_iff db.info).mp hf)
      | some doc =>
        have hmem := find_one_mem hf
        have hwf := hWF doc hmem
        have hdoc : doc.isEmpty = false := by
          cases doc with
          | nil => exact absurd rfl hwf.2
          | cons a t => rfl
        simp [get_info, hf, hdoc] at h
    · intro h
      simp [get_info, find_one_created_desc, h]
  · intro h
    simp [get_info] at h

/-- Witness for C7 at the fresh empty store. -/
theorem c7_info_404_iff_witness :
    get_info (some freshDB) = .error ⟨404, "Info not found"⟩ :=
  (c7_info_404_iff.1 freshDB (by decide)).mpr rfl

/-- C9: when the info collection holds more than one record, `get_info`
returns (the projection of) a stored record whose creation timestamp is
greatest. -/
theorem c9_info_most_recent (db : DB) (hlen : 1 < db.info.length)
    (hWF : ∀ d ∈ db.info, DocWF d) :
    ∃ d ∈ db.info, get_info (some db) = .ok (popId d) ∧
      ∀ d2 ∈ db.info, createdKey d2 ≤ createdKey d := by
  cases hs : List.insertionSort
      (fun a b => createdKey b ≤ createdKey a) db.info with
  | nil =>
    have hp := List.perm_insertionSort
      (fun a b => createdKey b ≤ createdKey a) db.info
    rw [hs] at hp
    rw [hp.symm.eq_nil] at hlen
    simp at hlen
  | cons d t =>
    have hperm := List.perm_insertionSort
      (fun a b => createdKey b ≤ createdKey a) db.info
    rw [hs] at hperm
    have hdmem : d ∈ db.info := hperm.subset (List.mem_cons_self d t)
    have hwf := hWF d hdmem
    have hdoc : d.isEmpty = false := by
      cases d with
      | nil => exact absurd rfl hwf.2
      | cons a t2 => rfl
    have hsorted : List.Pairwise
        (fun a b => createdKey b ≤ createdKey a) (d :: t) :=
      hs ▸ List.sorted_insertionSort _ db.info
    refine ⟨d, hdmem, ?_, ?_⟩
    · simp [get_info, find_one_created_desc, hs, hdoc]
    · intro d2 hd2
      have hmem2 : d2 ∈ d :: t := hperm.mem_iff.mpr hd2
      cases hmem2 with
      | head => exact Nat.le_refl _
      | tail _ hmem => exact (List.pairwise_cons.mp hsorted).1 d2 hmem

/-- Witness for C9 at the two-record info store: the later record wins. -/
theorem c9_info_most_recent_witness :
    ∃ d ∈ twoInfoDB.info, get_info (some twoInfoDB) = .ok (popId d) ∧
      ∀ d2 ∈ twoInfoDB.info, createdKey d2 ≤ createdKey d :=
  c9_info_most_recent twoInfoDB (by decide) (by decide)

/-- C6: the diagnostic endpoint is total — every store state, including an
absent handle and a failing collection listing, yields a payload with the
six fixed keys; the collections array never exceeds 10 entries, and every
failure mode is a descriptive string inside the payload, never an error
status. -/
theorem c6_diagnostic_total (dbPresent urlSet nameSet : Bool)
    (listColl : Except String (List String)) :
    (test_database dbPresent urlSet nameSet listColl).collections.length
        ≤ 10 ∧
    (∀ names, listColl = .ok names → dbPresent = true →
      (test_database dbPresent urlSet nameSet listColl).database =
        "✅ Connected & Working") ∧
    (∀ e, listColl = .error e → dbPresent = true →
      (test_database dbPresent urlSet nameSet listColl).database =
        "⚠️  Connected but Error: " ++ e.take 50) ∧
    (dbPresent = false →
      test_database dbPresent urlSet nameSet listColl =
        { backend := "✅ Running"
          database := "⚠️  Available but not initialized"
          database_url := none
          database_name := none
          connection_status := "Not Connected"
          collections := [] }) := by
  refine ⟨?_, ?_, ?_, ?_⟩
  · cases dbPresent with
    | false => simp [test_database]
    | true =>
      cases listColl with
      | ok names =>
        have hc : (test_database true urlSet nameSet (.ok names)).collections
            = names.take 10 := rfl
        rw [hc, List.length_take]
        exact Nat.min_le_left _ _
      | error e => simp [test_database]
  · intro names h hdb
    subst h; subst hdb
    rfl
  · intro e h hdb
    subst h; subst hdb
    rfl
  · intro h
    subst h
    rfl

/-- Witness for C6: a present handle whose collection listing throws is
still a payload, with the exception folded in as a string. -/
theorem c6_diagnostic_total_witness :
    (test_database true true true (.error "boom")).database =
      "⚠️  Connected but Error: " ++ "boom".take 50 :=
  (c6_diagnostic_total true true true (.error "boom")).2.2.1 "boom" rfl rfl

/-- C8: the startup hook swallows any seeding exception — on every failing
run it completes normally with the store state the failed run left behind,
and the error message is discarded; on a successful run it completes with
the seeded state.  Its result type has no error case: nothing is ever
surfaced to a client. -/
theorem c8_startup_swallows (base : Nat) (fail : Nat → Bool)
    (s : Option DB) :
    (∀ msg st, ensure_seed_dataE base fail s = .error (msg, st) →
      startup_event base fail s = st) ∧
    (∀ st, ensure_seed_dataE base fail s = .ok st →
      startup_event base fail s = st) := by
  constructor
  · intro msg st h
    unfold startup_event
    rw [h]
  · intro st h
    unfold startup_event
    rw [h]

/-- Witness for C8: a store whose very first insertion throws — startup
still completes, with the store untouched. -/
theorem c8_startup_swallows_witness :
    startup_event 0 (fun _ => true) (some freshDB) = some freshDB :=
  (c8_startup_swallows 0 (fun _ => true) (some freshDB)).1
    "insert failed" (some freshDB) rfl

theorem create_info_keeps (data : Doc) (db : DB) :
    (create_document "info" data db).owner = db.owner ∧
      (create_document "info" data db).event = db.event := by
  simp [create_document]

theorem create_owner_keeps (data : Doc) (db : DB) :
    (create_document "owner" data db).info = db.info ∧
      (create_document "owner" data db).event = db.event := by
  simp [create_document]

theorem create_event_keeps (data : Doc) (db : DB) :
    (create_document "event" data db).info = db.info ∧
      (create_document "event" data db).owner = db.owner := by
  simp [create_document]

theorem foldl_create_owner_info (l : List Doc) (db : DB) :
    (l.foldl (fun acc o => create_document "owner" o acc) db).info =
      db.info := by
  induction l generalizing db with
  | nil => rfl
  | cons o t ih => rw [List.foldl_cons, ih, (create_owner_keeps o db).1]

theorem foldl_create_owner_event (l : List Doc) (db : DB) :
    (l.foldl (fun acc o => create_document "owner" o acc) db).event =
      db.event := by
  induction l generalizing db with
  | nil => rfl
  | cons o t ih => rw [List.foldl_cons, ih, (create_owner_keeps o db).2]

theorem foldl_create_event_info (l : List Doc) (db : DB) :
    (l.foldl (fun acc e => create_document "event" e acc) db).info =
      db.info := by
  induction l generalizing db with
  | nil => rfl
  | cons e t ih => rw [List.foldl_cons, ih, (create_event_keeps e db).1]

theorem foldl_create_event_owner (l : List Doc) (db : DB) :
    (l.foldl (fun acc e => create_document "event" e acc) db).owner =
      db.owner := by
  induction l generalizing db with
  | nil => rfl
  | cons e t ih => rw [List.foldl_cons, ih, (create_event_keeps e db).2]

/-- C3: seeding is idempotent at collection-cardinality level — on every
store state, each collection that is already non-empty is left exactly as
it was (nothing inserted, count unchanged); only emptiness is checked, not
content, so this holds whatever the collection contains. -/
theorem c3_seed_idempotent (base : Nat) (db : DB) :
    ∃ db3, ensure_seed_data base (some db) = some db3 ∧
      (db.info ≠ [] → db3.info = db.info) ∧
      (db.owner ≠ [] → db3.owner = db.owner) ∧
      (db.event ≠ [] → db3.event = db.event) := by
  set db1 := (if count_documents db.info == 0
    then create_document "info" infoSeed db else db) with hdb1
  set db2 := (if count_documents db1.owner == 0
    then ownerSeeds.foldl (fun acc o => create_document "owner" o acc) db1
    else db1) with hdb2
  set db3 := (if count_documents db2.event == 0
    then (eventSeeds base).foldl (fun acc e => create_document "event" e acc)
      db2
    else db2) with hdb3
  have hmain : ensure_seed_data base (some db) = some db3 := rfl
  have hA : db1.owner = db.owner ∧ db1.event = db.event := by
    rw [hdb1]
    by_cases h : count_documents db.info == 0
    · rw [if_pos h]
      exact create_info_keeps infoSeed db
    · rw [if_neg h]
      exact ⟨rfl, rfl⟩
  have hC : db2.info = db1.info ∧ db2.event = db1.event := by
    rw [hdb2]
    by_cases h : count_documents db1.owner == 0
    · rw [if_pos h]
      exact ⟨foldl_create_owner_info _ _, foldl_create_owner_event _ _⟩
    · rw [if_neg h]
      exact ⟨rfl, rfl⟩
  have hE : db3.info = db2.info ∧ db3.owner = db2.owner := by
    rw [hdb3]
    by_cases h : count_documents db2.event == 0
    · rw [if_pos h]
      exact ⟨foldl_create_event_info _ _, foldl_create_event_owner _ _⟩
    · rw [if_neg h]
      exact ⟨rfl, rfl⟩
  refine ⟨db3, hmain, ?_, ?_, ?_⟩
  · intro h
    have hcond : (count_documents db.info == 0) = false := by
      simp [count_documents, List.length_eq_zero, h]
    rw [hE.1, hC.1, hdb1, hcond]
    simp
  · intro h
    have h1 : db1.owner = db.owner := hA.1
    have hcond : (count_documents db1.owner == 0) = false := by
      simp [count_documents, h1, List.length_eq_zero, h]
    rw [hE.2, hdb2, hcond]
    simp [h1]
  · intro h
    have h2 : db2.event = db.event := hC.2.trans hA.2
    have hcond : (count_documents db2.event == 0) = false := by
      simp [count_documents, h2, List.length_eq_zero, h]
    rw [hdb3, hcond]
    simp [h2]

/-- Witness for C3: on a store whose three collections are non-empty with
arbitrary (non-seed) content, seeding changes none of them. -/
theorem c3_seed_idempotent_witness :
    ∃ db3, ensure_seed_data 0 (some nonEmptyDB) = some db3 ∧
      db3.info = nonEmptyDB.info ∧ db3.owner = nonEmptyDB.owner ∧
      db3.event = nonEmptyDB.event :=
  match c3_seed_idempotent 0 nonEmptyDB with
  | ⟨db3, h, hi, ho, he⟩ =>
    ⟨db3, h, hi (by decide), ho (by decide), he (by decide)⟩

theorem insertionSort_three {r : Doc → Doc → Prop} [DecidableRel r]
    (a b c : Doc) (hab : r a b) (hbc : r b c) :
    List.insertionSort r [a, b, c] = [a, b, c] := by
  simp [List.insertionSort, List.orderedInsert, hab, hbc]

/-- C4: seeding a fresh store yields exactly 3 events, returned by
`get_events` in the order "Kabarett: Wiener Schmäh", "Improv: Alles kann,
nix muss", "Stand-up: Late Night Laughs" with dates 7, 18 and 32 days
after the base time, and exactly 2 owners, returned by `get_owners` in
insertion order "Lena Leitner", "Max Maurer". -/
theorem c4_fresh_seed (base : Nat) :
    ∃ db3, ensure_seed_data base (some freshDB) = some db3 ∧
      db3.event.length = 3 ∧ db3.owner.length = 2 ∧
      ∃ le lo, get_events (some db3) = .ok le ∧
        get_owners (some db3) = .ok lo ∧
        le.map (fun d => d.lookup "title") =
          [some (.str "Kabarett: Wiener Schmäh"),
           some (.str "Improv: Alles kann, nix muss"),
           some (.str "Stand-up: Late Night Laughs")] ∧
        le.map (fun d => d.lookup "date") =
          [some (.dt (base + 7 * daySecs)),
           some (.dt (base + 18 * daySecs)),
           some (.dt (base + 32 * daySecs))] ∧
        lo.map (fun d => d.lookup "name") =
          [some (.str "Lena Leitner"), some (.str "Max Maurer")] := by
  have h12 : base + 7 * daySecs ≤ base + 18 * daySecs :=
    Nat.add_le_add_left (by decide) base
  have h23 : base + 18 * daySecs ≤ base + 32 * daySecs :=
    Nat.add_le_add_left (by decide) base
  have hseed : ensure_seed_data base (some freshDB) = some (seededAt base) :=
    rfl
  have hsort : List.insertionSort (fun a b => dateKey a ≤ dateKey b)
      (seededAt base).event = (seededAt base).event :=
    insertionSort_three _ _ _ h12 h23
  refine ⟨seededAt base, hseed, rfl, rfl, ?_⟩
  refine ⟨_, _, rfl, rfl, ?_, ?_, ?_⟩
  · rw [hsort]
    rfl
  · rw [hsort]
    rfl
  · rfl
